import Mathlib

/-!
# CanonMavlinkBridge: shallow embedding and checked properties

The embedding follows the C++ sources:

* `src/main.cpp`: `should_exit`, `signal_handler`, `main`;
* `src/bridge/event_processor.cpp`: `process_event`;
* `src/bridge/bridge_core.cpp`: `CanonMavlinkBridge::initialize`;
* `src/mavlink/ftp_server.cpp`: `FtpServer::start`;
* `src/mavlink/mavlink_interface.cpp`: `MavlinkInterface::initialize`;
* `src/canon/canon_camera.cpp`: `CanonCamera::connect`;
* `src/utils/config.cpp`: `Config::load`.

A C++ function becomes a Lean function returning the list of its observable
effects (lines written to `std::cout` / `std::cerr`, calls into MAVSDK, sleeps)
together with its return value and the state it leaves behind.
-/

namespace Bridge

/-! ## Vocabulary -/

/-- Modelled from the spec: the error a NAK carries (sections 4.3 and 7). The
sources declare no FTP type at all. -/
inductive FtpError
  | InvalidSequence
  | Fail
  | FailErrno (errno : Nat)
  | PermissionDenied
  deriving DecidableEq, Repr

/-- Modelled from the spec: the result code of a command ack (sections 4.2 and 7).
The sources declare no ack type. -/
inductive AckResult
  | Accepted
  | Busy
  | Unsupported
  | Failed
  deriving DecidableEq, Repr

/-- Modelled from the spec: a terminal response to an inbound request
(section 7): a command ack, an FTP ACK with its payload, an FTP NAK, or the
synthetic failure produced by a timeout. The sources declare no response type. -/
inductive TerminalResponse
  | command_ack (result : AckResult)
  | ftp_ack (data : List Nat)
  | ftp_nak (error : FtpError)
  | timeout_failure
  deriving DecidableEq, Repr

/-- One observable effect of running a function of the sources. The first eleven
are what the sources do. The last one is the effect the specification speaks
of, a terminal response published on the link; no function of the sources
performs it. -/
inductive Effect
  /-- One line on standard output: `std::cout << ... << std::endl`. -/
  | cout (text : String)
  /-- One line on standard error: `std::cerr << ... << std::endl`. -/
  | cerr (text : String)
  /-- The call `signal(signum, signal_handler)`. -/
  | signal_install (signum : Int)
  /-- The call `mavsdk.set_configuration(config)`, usage type CompanionComputer. -/
  | set_configuration
  /-- The call `mavsdk.add_any_connection(url)`. -/
  | add_any_connection (url : String)
  /-- The camera plugin is instantiated: `Camera{system}`. -/
  | camera_new
  /-- The call `camera.set_mode(Camera::Mode::Photo)`. -/
  | camera_set_mode
  /-- The FTP plugin is instantiated: `Ftp{system}`. -/
  | ftp_new
  /-- The call `ftp.list_directory(path)`. -/
  | ftp_list_directory (path : String)
  /-- One evaluation of the main loop's condition, with the value of
  `should_exit` it read. -/
  | loop_test (flag : Int)
  /-- The call `std::this_thread::sleep_for(std::chrono::milliseconds(ms))`. -/
  | sleep_ms (ms : Nat)
  /-- Modelled from the spec: a terminal response sent to the client. -/
  | respond (r : TerminalResponse)
  deriving DecidableEq, Repr

/-- The outcome of calling a member function: the object afterwards, the
effects of the call in order, and the value returned. -/
structure Ret (σ α : Type) where
  self : σ
  effects : List Effect
  value : α

/-- The terminal responses among a list of effects, in order. -/
def responses_of : List Effect → List TerminalResponse
  | [] => []
  | Effect.respond r :: rest => r :: responses_of rest
  | _ :: rest => responses_of rest

/-- The lines written to standard output among a list of effects. -/
def cout_of : List Effect → List String
  | [] => []
  | Effect.cout t :: rest => t :: cout_of rest
  | _ :: rest => cout_of rest

/-! ## The stub components -/

/-- The class `FtpServer` (ftp_server.cpp): no data members. -/
structure FtpServer where
  deriving DecidableEq, Repr

/-- Member `FtpServer::start` (ftp_server.cpp lines 12-15): writes one line and
returns `false`. It is the only member function of the class. -/
def FtpServer.start (self : FtpServer) (root_path : String) : Ret FtpServer Bool :=
  { self := self
    effects := [Effect.cout ("FtpServer::start(" ++ root_path ++ ") - stub implementation")]
    value := false }

/-- The class `MavlinkInterface` (mavlink_interface.cpp): no data members. -/
structure MavlinkInterface where
  deriving DecidableEq, Repr

/-- Member `MavlinkInterface::initialize` (mavlink_interface.cpp lines 12-15). -/
def MavlinkInterface.initialize (self : MavlinkInterface) (connection_url : String) :
    Ret MavlinkInterface Bool :=
  { self := self
    effects :=
      [Effect.cout ("MavlinkInterface::initialize(" ++ connection_url ++ ") - stub implementation")]
    value := false }

/-- The class `CanonMavlinkBridge` (bridge_core.cpp): no data members. -/
structure CanonMavlinkBridge where
  deriving DecidableEq, Repr

/-- Member `CanonMavlinkBridge::initialize` (bridge_core.cpp lines 12-15). -/
def CanonMavlinkBridge.initialize (self : CanonMavlinkBridge) : Ret CanonMavlinkBridge Bool :=
  { self := self
    effects := [Effect.cout "CanonMavlinkBridge::initialize() - stub implementation"]
    value := false }

/-- The class `Config` (config.cpp): no data members. -/
structure Config where
  deriving DecidableEq, Repr

/-- Member `Config::load` (config.cpp lines 13-16). -/
def Config.load (self : Config) (config_file : String) : Ret Config Bool :=
  { self := self
    effects := [Effect.cout ("Config::load(" ++ config_file ++ ") - stub implementation")]
    value := false }

/-- The class `CanonCamera` (canon_camera.cpp): no data members. The file has no
conditional compilation: the class is the same with and without
`EDSDK_AVAILABLE`. -/
structure CanonCamera where
  deriving DecidableEq, Repr

/-- Member `CanonCamera::connect` (canon_camera.cpp lines 13-16). -/
def CanonCamera.connect (self : CanonCamera) : Ret CanonCamera Bool :=
  { self := self
    effects := [Effect.cout "CanonCamera::connect() - stub implementation"]
    value := false }

/-- Function `process_event` (event_processor.cpp lines 10-12): a free function
returning `void`; it reads and writes no variable besides its argument. -/
def process_event (event_type : String) : List Effect :=
  [Effect.cout ("process_event(" ++ event_type ++ ") - stub implementation")]

/-- A member function called once per argument on the same object, each call
on the object the previous call left: the values returned, in order. -/
def call_each {σ : Type} (f : σ → String → Ret σ Bool) : σ → List String → List Bool
  | _, [] => []
  | s, a :: rest => (f s a).value :: call_each f (f s a).self rest

/-- A member function without arguments called `n` times in a row on the same
object: the values returned, in order. -/
def call_times {σ : Type} (f : σ → Ret σ Bool) : σ → Nat → List Bool
  | _, 0 => []
  | s, n + 1 => (f s).value :: call_times f (f s).self n

/-! ## main.cpp -/

/-- The result type `mavsdk::ConnectionResult` of the MAVSDK library: `Success`,
or any other enumerator, which `main` does not tell apart; `text` is what the
library's `operator<<` prints for it. -/
inductive ConnectionResult
  | Success
  | Other (text : String)
  deriving DecidableEq, Repr

/-- The result type `Camera::Result` of the MAVSDK library, read as
`ConnectionResult` is. -/
inductive CameraResult
  | Success
  | Other (text : String)
  deriving DecidableEq, Repr

/-- The result type `Ftp::Result` of the MAVSDK library, read as
`ConnectionResult` is. -/
inductive FtpResult
  | Success
  | Other (text : String)
  deriving DecidableEq, Repr

/-- What one of the two `try` blocks of `main` meets: the plugin's constructor
throws a `std::exception`, or the plugin is built and its member call throws
one, or the call returns a result. `what` is the text of `e.what()`. -/
inductive PluginOutcome (R : Type)
  | ctor_threw (what : String)
  | call_threw (what : String)
  | returned (result : R)
  deriving DecidableEq, Repr

/-- The signal number `SIGINT` of `<signal.h>` (its value on Linux). -/
def SIGINT : Int := 2

/-- The signal number `SIGTERM` of `<signal.h>` (its value on Linux). -/
def SIGTERM : Int := 15

/-- The global variables of main.cpp: `volatile sig_atomic_t should_exit`. -/
structure Globals where
  should_exit : Int
  deriving DecidableEq, Repr

/-- The initial value of the globals: `should_exit = 0` (main.cpp line 23). -/
def Globals.start : Globals := { should_exit := 0 }

/-- Function `signal_handler` (main.cpp lines 25-28): stores 1 in `should_exit`
and writes one line. -/
def signal_handler (g : Globals) (signal : Int) : Globals × List Effect :=
  ({ g with should_exit := 1 },
   [Effect.cout ("Received signal " ++ toString signal ++ ", shutting down...")])

/-- The handler run once for each signal of a list, in order: the globals
afterwards and the lines written. -/
def run_handlers (g : Globals) : List Int → Globals × List Effect
  | [] => (g, [])
  | signal :: rest =>
    let first := signal_handler g signal
    let others := run_handlers first.1 rest
    (others.1, first.2 ++ others.2)

/-- Everything outside `main` that its run depends on.
* `add_any_connection` : what the library returns for a URL;
* `systems` : the number of entries of `mavsdk.systems()`;
* `camera`, `ftp` : what the two `try` blocks meet when a system is present;
* `edsdk_available` : whether `EDSDK_AVAILABLE` was defined at compile time;
* `handler_calls k` : the signals for which `signal_handler` runs before the
  evaluation number `k` of the main loop's condition and after the previous
  one; for `k = 0`: since the handlers were installed at lines 34-35, which on
  the failure path means before `main` returns at line 54. -/
structure Env where
  add_any_connection : String → ConnectionResult
  systems : Nat
  camera : PluginOutcome CameraResult
  ftp : PluginOutcome FtpResult
  edsdk_available : Bool
  handler_calls : Nat → List Int

/-- The connection string (main.cpp lines 43-46): `argv[1]` when `argc > 1`,
the default otherwise. `argv` is the whole argument vector, program name first. -/
def connection_url (argv : List String) : String :=
  if h : 1 < argv.length then argv[1] else "udp://0.0.0.0:14540"

/-- Lines 31-51 of `main`: up to and including the call of `add_any_connection`. -/
def connect_trace (url : String) : List Effect :=
  [ Effect.cout "CanonMavlinkBridge starting...",
    Effect.signal_install SIGINT,
    Effect.signal_install SIGTERM,
    Effect.set_configuration,
    Effect.cout ("Adding connection: " ++ url),
    Effect.add_any_connection url ]

/-- Lines 57-70 of `main`: whether a system was found; `system` is
`systems[0]` when the list is not empty and null otherwise. -/
def discover_trace (systems : Nat) : List Effect :=
  Effect.cout "Waiting for system to connect..." ::
    (if systems = 0 then
      [Effect.cout "No systems found, continuing anyway for testing..."]
    else
      [Effect.cout "System connected!"])

/-- Lines 72-91 of `main`: the camera plugin test. -/
def camera_trace (systems : Nat) (camera : PluginOutcome CameraResult) : List Effect :=
  Effect.cout "Testing camera plugin availability..." ::
    (if systems = 0 then
      [Effect.cout "Camera plugin available (no system to test with)"]
    else
      match camera with
      | PluginOutcome.ctor_threw what =>
        [Effect.camera_new, Effect.cout ("Camera plugin error: " ++ what)]
      | PluginOutcome.call_threw what =>
        [Effect.camera_new, Effect.cout "Camera plugin instantiated successfully",
         Effect.camera_set_mode, Effect.cout ("Camera plugin error: " ++ what)]
      | PluginOutcome.returned (CameraResult.Other text) =>
        [Effect.camera_new, Effect.cout "Camera plugin instantiated successfully",
         Effect.camera_set_mode, Effect.cout ("Failed to set camera mode: " ++ text)]
      | PluginOutcome.returned CameraResult.Success =>
        [Effect.camera_new, Effect.cout "Camera plugin instantiated successfully",
         Effect.camera_set_mode, Effect.cout "Camera mode set successfully"])

/-- Lines 93-112 of `main`: the FTP plugin test. -/
def ftp_trace (systems : Nat) (ftp : PluginOutcome FtpResult) : List Effect :=
  Effect.cout "Testing FTP plugin availability..." ::
    (if systems = 0 then
      [Effect.cout "FTP plugin available (no system to test with)"]
    else
      match ftp with
      | PluginOutcome.ctor_threw what =>
        [Effect.ftp_new, Effect.cout ("FTP plugin error: " ++ what)]
      | PluginOutcome.call_threw what =>
        [Effect.ftp_new, Effect.cout "FTP plugin instantiated successfully",
         Effect.ftp_list_directory "/", Effect.cout ("FTP plugin error: " ++ what)]
      | PluginOutcome.returned (FtpResult.Other text) =>
        [Effect.ftp_new, Effect.cout "FTP plugin instantiated successfully",
         Effect.ftp_list_directory "/", Effect.cout ("Failed to list directory: " ++ text)]
      | PluginOutcome.returned FtpResult.Success =>
        [Effect.ftp_new, Effect.cout "FTP plugin instantiated successfully",
         Effect.ftp_list_directory "/", Effect.cout "FTP directory listing successful"])

/-- Lines 114-128 of `main`: the report on the Canon EDSDK, chosen by the
preprocessor, and the line announcing the main loop. -/
def edsdk_trace (edsdk_available : Bool) : List Effect :=
  Effect.cout "Testing Canon EDSDK availability..." ::
    (if edsdk_available then
      [Effect.cout "Canon EDSDK is available and linked"]
    else
      [Effect.cout "WARNING: Canon EDSDK not available",
       Effect.cout "Canon camera functionality will be disabled",
       Effect.cout "To enable Canon support:",
       Effect.cout "  1. Download Canon EDSDK from developer.canon.com",
       Effect.cout "  2. Run: ./scripts/setup_edsdk.sh <path-to-edsdk>",
       Effect.cout "  3. Rebuild the project"]) ++
    [Effect.cout "Initialization complete. Press Ctrl+C to exit."]

/-- A run of the main loop cut after a number of evaluations of its condition:
whether the loop was left, the globals at that point, the effects so far. -/
structure LoopRun where
  exited : Bool
  globals : Globals
  trace : List Effect

/-- The main loop (main.cpp lines 131-133), `while (!should_exit) sleep 100ms`.
`fuel` bounds the number of evaluations of the condition; `k` numbers the next
evaluation. The handlers due before an evaluation run first; the loop is left
when the flag read is non-zero. -/
def main_loop (calls : Nat → List Int) : Nat → Nat → Globals → LoopRun
  | 0, _, g => { exited := false, globals := g, trace := [] }
  | fuel + 1, k, g =>
    let handled := run_handlers g (calls k)
    if handled.1.should_exit ≠ 0 then
      { exited := true
        globals := handled.1
        trace := handled.2 ++ [Effect.loop_test handled.1.should_exit] }
    else
      let later := main_loop calls fuel (k + 1) handled.1
      { exited := later.exited
        globals := later.globals
        trace := handled.2 ++
          [Effect.loop_test handled.1.should_exit, Effect.sleep_ms 100] ++ later.trace }

/-- A run of `main` cut after `fuel` evaluations of the loop condition:
`exit_code` is the value `main` returned, or `none` while it is still in the
loop. -/
structure MainRun where
  exit_code : Option Int
  globals : Globals
  trace : List Effect

/-- Function `main` (main.cpp lines 30-137). The handlers are installed at
lines 34-35, before the connection is added: the handler runs of
`handler_calls 0` take place on both paths. When the connection fails `main`
returns -1 at line 54 whatever the flag then holds; otherwise each handler run
is followed at the next evaluation of the loop condition. -/
def main (env : Env) (fuel : Nat) (argv : List String) : MainRun :=
  let url := connection_url argv
  match env.add_any_connection url with
  | ConnectionResult.Other text =>
    let handled := run_handlers Globals.start (env.handler_calls 0)
    { exit_code := some (-1)
      globals := handled.1
      trace := connect_trace url ++ handled.2 ++
        [Effect.cerr ("Connection failed: " ++ text)] }
  | ConnectionResult.Success =>
    let loop := main_loop env.handler_calls fuel 0 Globals.start
    { exit_code := if loop.exited then some 0 else none
      globals := loop.globals
      trace := connect_trace url ++ discover_trace env.systems ++
        camera_trace env.systems env.camera ++ ftp_trace env.systems env.ftp ++
        edsdk_trace env.edsdk_available ++ loop.trace ++
        (if loop.exited then [Effect.cout "CanonMavlinkBridge shutting down..."] else []) }

/-- The URLs passed to `add_any_connection` among a list of effects. -/
def urls_of : List Effect → List String
  | [] => []
  | Effect.add_any_connection url :: rest => url :: urls_of rest
  | _ :: rest => urls_of rest

/-- Whether an effect is a line of text, on standard output or standard error. -/
def Effect.is_text : Effect → Bool
  | Effect.cout _ => true
  | Effect.cerr _ => true
  | _ => false

/-- The control flow of a run: its effects without the lines of text. -/
def control_of (trace : List Effect) : List Effect :=
  trace.filter (fun e => !e.is_text)

/-- The number of sleeps among a list of effects. -/
def sleeps_of : List Effect → Nat
  | [] => 0
  | Effect.sleep_ms _ :: rest => sleeps_of rest + 1
  | _ :: rest => sleeps_of rest

/-- Whether an effect belongs to what follows a successful connection: a plugin
instantiated or called, the loop condition evaluated, a sleep. -/
def Effect.after_connect : Effect → Bool
  | Effect.camera_new => true
  | Effect.camera_set_mode => true
  | Effect.ftp_new => true
  | Effect.ftp_list_directory _ => true
  | Effect.loop_test _ => true
  | Effect.sleep_ms _ => true
  | _ => false

/-- An environment for examples: the connection succeeds exactly for the
default URL, one system is present, the camera refuses the mode, the
FTP constructor throws, the EDSDK is absent, and SIGINT arrives during the
third sleep. -/
def sample_env : Env :=
  { add_any_connection := fun url =>
      if url = "udp://0.0.0.0:14540" then ConnectionResult.Success
      else ConnectionResult.Other "ConnectionError"
    systems := 1
    camera := PluginOutcome.returned (CameraResult.Other "Denied")
    ftp := PluginOutcome.ctor_threw "no ftp"
    edsdk_available := false
    handler_calls := fun k => if k = 3 then [SIGINT] else [] }

/-- The sample environment with SIGINT arriving during start-up instead: the
handler runs once, before the first evaluation of the loop condition. -/
def early_signal_env : Env :=
  { sample_env with handler_calls := fun k => if k = 0 then [SIGINT] else [] }

/-! ## Properties of the stub components -/

theorem call_each_false {σ : Type} (f : σ → String → Ret σ Bool)
    (hf : ∀ s a, (f s a).value = false) (s : σ) (args : List String) :
    call_each f s args = List.replicate args.length false := by
  induction args generalizing s with
  | nil => rfl
  | cons a rest ih => simp [call_each, hf, ih, List.replicate_succ]

theorem call_times_false {σ : Type} (f : σ → Ret σ Bool)
    (hf : ∀ s, (f s).value = false) (s : σ) (n : Nat) :
    call_times f s n = List.replicate n false := by
  induction n generalizing s with
  | zero => rfl
  | succ n ih => simp [call_times, hf, ih, List.replicate_succ]

/-- C10: the bridge core, the MAVLink interface, the FTP server and the
configuration never report success. For every object, every argument string
and every sequence of calls, `CanonMavlinkBridge::initialize`,
`MavlinkInterface::initialize`, `FtpServer::start` and `Config::load` return
`false`; the object is left as it was, so earlier calls change nothing. -/
theorem stubs_never_report_success (b : CanonMavlinkBridge) (m : MavlinkInterface)
    (f : FtpServer) (c : Config) (s : String) (args : List String) (n : Nat) :
    ( CanonMavlinkBridge.initialize b).value = false ∧
    ( MavlinkInterface.initialize m s).value = false ∧
    (FtpServer.start f s).value = false ∧
    (Config.load c s).value = false ∧
    call_times CanonMavlinkBridge.initialize b n = List.replicate n false ∧
    call_each MavlinkInterface.initialize m args = List.replicate args.length false ∧
    call_each FtpServer.start f args = List.replicate args.length false ∧
    call_each Config.load c args = List.replicate args.length false :=
  ⟨rfl, rfl, rfl, rfl,
    call_times_false _ (fun _ => rfl) b n,
    call_each_false _ (fun _ _ => rfl) m args,
    call_each_false _ (fun _ _ => rfl) f args,
    call_each_false _ (fun _ _ => rfl) c args⟩

/-- C4, as stated, fails: an event handed to `process_event` and a request
handed to `FtpServer::start` each produce zero terminal responses, not one. -/
theorem requests_get_zero_responses :
    (responses_of (process_event "Capture")).length = 0 ∧
    (responses_of (FtpServer.start FtpServer.mk "/DCIM").effects).length = 0 :=
  ⟨rfl, rfl⟩

/-- C4, amended: every call of `process_event` and of `FtpServer::start`
returns, having produced exactly one effect, a line on standard output, and no
terminal response (no ack, no NAK, no timeout failure); `start` returns
`false`. -/
theorem stub_calls_log_one_line_and_respond_nothing (event_type root_path : String)
    (srv : FtpServer) :
    (process_event event_type).length = 1 ∧
    (cout_of (process_event event_type)).length = 1 ∧
    responses_of (process_event event_type) = [] ∧
    (srv.start root_path).effects.length = 1 ∧
    (cout_of (srv.start root_path).effects).length = 1 ∧
    responses_of (srv.start root_path).effects = [] ∧
    (srv.start root_path).value = false :=
  ⟨rfl, rfl, rfl, rfl, rfl, rfl, rfl⟩

/-! ## Properties of the signal handler and the main loop -/

theorem run_handlers_latch (g : Globals) (signals : List Int) (h : g.should_exit = 1) :
    (run_handlers g signals).1.should_exit = 1 := by
  induction signals generalizing g with
  | nil => exact h
  | cons signal rest ih => exact ih _ rfl

theorem run_handlers_sets (g : Globals) (signals : List Int) (h : signals ≠ []) :
    (run_handlers g signals).1.should_exit = 1 := by
  cases signals with
  | nil => exact absurd rfl h
  | cons signal rest => exact run_handlers_latch _ rest rfl

theorem run_handlers_flag (g : Globals) (signals : List Int) :
    (run_handlers g signals).1.should_exit = g.should_exit ∨
      (run_handlers g signals).1.should_exit = 1 := by
  cases signals with
  | nil => exact Or.inl rfl
  | cons signal rest => exact Or.inr (run_handlers_latch _ rest rfl)

theorem sleeps_of_append (a b : List Effect) :
    sleeps_of (a ++ b) = sleeps_of a + sleeps_of b := by
  induction a with
  | nil => simp [sleeps_of]
  | cons e rest ih =>
    cases e <;> simp [sleeps_of, ih]
    omega

theorem urls_of_append (a b : List Effect) : urls_of (a ++ b) = urls_of a ++ urls_of b := by
  induction a with
  | nil => simp [urls_of]
  | cons e rest ih => cases e <;> simp [urls_of, ih]

theorem run_handlers_sleeps (g : Globals) (signals : List Int) :
    sleeps_of (run_handlers g signals).2 = 0 := by
  induction signals generalizing g with
  | nil => rfl
  | cons signal rest ih =>
    simp only [run_handlers, sleeps_of_append, ih]
    rfl

theorem run_handlers_urls (g : Globals) (signals : List Int) :
    urls_of (run_handlers g signals).2 = [] := by
  induction signals generalizing g with
  | nil => rfl
  | cons signal rest ih =>
    simp only [run_handlers, urls_of_append, ih]
    rfl

theorem run_handlers_control (g : Globals) (signals : List Int) :
    control_of (run_handlers g signals).2 = [] := by
  induction signals generalizing g with
  | nil => rfl
  | cons signal rest ih =>
    have h := ih (signal_handler g signal).1
    simp only [control_of] at h ⊢
    simp only [run_handlers, List.filter_append, h]
    rfl

theorem run_handlers_before_loop (g : Globals) (signals : List Int) :
    (run_handlers g signals).2.all (fun e => !e.after_connect) = true := by
  induction signals generalizing g with
  | nil => rfl
  | cons signal rest ih =>
    have h := ih (signal_handler g signal).1
    simp only [run_handlers, List.all_append, h, Bool.and_true]
    rfl

theorem run_handlers_binary (g : Globals) (signals : List Int)
    (hg : g.should_exit = 0 ∨ g.should_exit = 1) :
    (run_handlers g signals).1.should_exit = 0 ∨ (run_handlers g signals).1.should_exit = 1 := by
  rcases run_handlers_flag g signals with h | h
  · rw [h]; exact hg
  · exact Or.inr h

theorem main_loop_exits (calls : Nat → List Int) (n : Nat) :
    ∀ (k fuel : Nat) (g : Globals), (g.should_exit = 0 ∨ g.should_exit = 1) →
      calls (k + n) ≠ [] → n < fuel →
      (main_loop calls fuel k g).exited = true ∧
      (main_loop calls fuel k g).globals.should_exit = 1 ∧
      sleeps_of (main_loop calls fuel k g).trace ≤ n := by
  induction n with
  | zero =>
    intro k fuel g _ hk hf
    obtain ⟨fuel, rfl⟩ := Nat.exists_eq_succ_of_ne_zero (Nat.pos_iff_ne_zero.mp hf)
    have h1 : (run_handlers g (calls k)).1.should_exit = 1 := run_handlers_sets g _ hk
    simp [main_loop, h1, sleeps_of_append, run_handlers_sleeps, sleeps_of]
  | succ n ih =>
    intro k fuel g hg hk hf
    obtain ⟨fuel, rfl⟩ := Nat.exists_eq_succ_of_ne_zero (Nat.pos_iff_ne_zero.mp (by omega : 0 < fuel))
    have hk2 : calls (k + 1 + n) ≠ [] := by
      have : k + 1 + n = k + (n + 1) := by omega
      rw [this]; exact hk
    rcases run_handlers_binary g (calls k) hg with h0 | h1
    · obtain ⟨e1, e2, e3⟩ :=
        ih (k + 1) fuel (run_handlers g (calls k)).1 (Or.inl h0) hk2 (by omega)
      simp [main_loop, h0, sleeps_of_append, run_handlers_sleeps, sleeps_of, e1, e2]
      omega
    · simp [main_loop, h1, sleeps_of_append, run_handlers_sleeps, sleeps_of]

/-- The loop left: the flag it read last was 1, the globals hold 1. -/
theorem main_loop_exited (calls : Nat → List Int) (fuel : Nat) :
    ∀ (k : Nat) (g : Globals), (g.should_exit = 0 ∨ g.should_exit = 1) →
      (main_loop calls fuel k g).exited = true →
      (main_loop calls fuel k g).globals.should_exit = 1 ∧
      (main_loop calls fuel k g).trace.getLast? = some (Effect.loop_test 1) := by
  induction fuel with
  | zero => intro k g _ h; simp [main_loop] at h
  | succ fuel ih =>
    intro k g hg h
    rcases run_handlers_binary g (calls k) hg with h0 | h1
    · simp only [main_loop, h0, ne_eq, not_true_eq_false, ↓reduceIte] at h ⊢
      obtain ⟨e1, e2⟩ := ih (k + 1) _ (Or.inl h0) h
      refine ⟨e1, ?_⟩
      rw [List.getLast?_append, e2]
      rfl
    · simp [main_loop, h1]

/-- The loop still running: the flag is 0, as is every flag it read. -/
theorem main_loop_running (calls : Nat → List Int) (fuel : Nat) :
    ∀ (k : Nat) (g : Globals), g.should_exit = 0 →
      (main_loop calls fuel k g).exited = false →
      (main_loop calls fuel k g).globals.should_exit = 0 ∧
      sleeps_of (main_loop calls fuel k g).trace = fuel ∧
      ∀ j, j < fuel → calls (k + j) = [] := by
  induction fuel with
  | zero => intro k g hg _; exact ⟨hg, rfl, fun j hj => absurd hj (Nat.not_lt_zero j)⟩
  | succ fuel ih =>
    intro k g hg h
    rcases run_handlers_binary g (calls k) (Or.inl hg) with h0 | h1
    · simp only [main_loop, h0, ne_eq, not_true_eq_false, ↓reduceIte] at h ⊢
      obtain ⟨e1, e2, e3⟩ := ih (k + 1) _ h0 h
      refine ⟨e1, ?_, ?_⟩
      · simp [sleeps_of_append, run_handlers_sleeps, sleeps_of, e2]
      · intro j hj
        cases j with
        | zero =>
          by_contra hc
          have := run_handlers_sets g (calls k) hc
          simp at this
          omega
        | succ j =>
          have := e3 j (by omega)
          have e : k + (j + 1) = k + 1 + j := by omega
          rw [e]; exact this
    · simp [main_loop, h1] at h

/-- When the first handler call comes before evaluation `k + n`, the loop
sleeps exactly `n` times from evaluation `k` on. -/
theorem main_loop_first (calls : Nat → List Int) (n : Nat) :
    ∀ (k fuel : Nat) (g : Globals), g.should_exit = 0 →
      (∀ j, j < n → calls (k + j) = []) → calls (k + n) ≠ [] → n < fuel →
      sleeps_of (main_loop calls fuel k g).trace = n := by
  induction n with
  | zero =>
    intro k fuel g _ _ hk hf
    obtain ⟨fuel, rfl⟩ := Nat.exists_eq_succ_of_ne_zero (Nat.pos_iff_ne_zero.mp hf)
    have h1 : (run_handlers g (calls k)).1.should_exit = 1 := run_handlers_sets g _ hk
    simp [main_loop, h1, sleeps_of_append, run_handlers_sleeps, sleeps_of]
  | succ n ih =>
    intro k fuel g hg hnone hk hf
    obtain ⟨fuel, rfl⟩ := Nat.exists_eq_succ_of_ne_zero (Nat.pos_iff_ne_zero.mp (by omega : 0 < fuel))
    have hk0 : calls k = [] := hnone 0 (by omega)
    have h0 : (run_handlers g (calls k)).1.should_exit = 0 := by rw [hk0]; exact hg
    have hk2 : calls (k + 1 + n) ≠ [] := by
      have : k + 1 + n = k + (n + 1) := by omega
      rw [this]; exact hk
    have hnone2 : ∀ j, j < n → calls (k + 1 + j) = [] := by
      intro j hj
      have : k + 1 + j = k + (j + 1) := by omega
      rw [this]; exact hnone (j + 1) (by omega)
    have e := ih (k + 1) fuel (run_handlers g (calls k)).1 h0 hnone2 hk2 (by omega)
    simp [main_loop, h0, sleeps_of_append, run_handlers_sleeps, sleeps_of, e]

theorem main_failure (env : Env) (fuel : Nat) (argv : List String) (text : String)
    (h : env.add_any_connection (connection_url argv) = ConnectionResult.Other text) :
    main env fuel argv =
      { exit_code := some (-1)
        globals := (run_handlers Globals.start (env.handler_calls 0)).1
        trace := connect_trace (connection_url argv) ++
          (run_handlers Globals.start (env.handler_calls 0)).2 ++
          [Effect.cerr ("Connection failed: " ++ text)] } := by
  simp only [main, h]

theorem main_success (env : Env) (fuel : Nat) (argv : List String)
    (h : env.add_any_connection (connection_url argv) = ConnectionResult.Success) :
    main env fuel argv =
      { exit_code := if (main_loop env.handler_calls fuel 0 Globals.start).exited then some 0
          else none
        globals := (main_loop env.handler_calls fuel 0 Globals.start).globals
        trace := connect_trace (connection_url argv) ++ discover_trace env.systems ++
          camera_trace env.systems env.camera ++ ftp_trace env.systems env.ftp ++
          edsdk_trace env.edsdk_available ++
          (main_loop env.handler_calls fuel 0 Globals.start).trace ++
          (if (main_loop env.handler_calls fuel 0 Globals.start).exited then
            [Effect.cout "CanonMavlinkBridge shutting down..."] else []) } := by
  simp only [main, h]

theorem connection_cases (r : ConnectionResult) :
    r = ConnectionResult.Success ∨ ∃ text, r = ConnectionResult.Other text := by
  cases r with
  | Success => exact Or.inl rfl
  | Other text => exact Or.inr ⟨text, rfl⟩

theorem main_loop_urls (calls : Nat → List Int) (fuel : Nat) :
    ∀ (k : Nat) (g : Globals), urls_of (main_loop calls fuel k g).trace = [] := by
  induction fuel with
  | zero => intro k g; rfl
  | succ fuel ih =>
    intro k g
    by_cases h0 : (run_handlers g (calls k)).1.should_exit = 0
    · simp [main_loop, h0, urls_of_append, run_handlers_urls, urls_of, ih]
    · simp [main_loop, h0, urls_of_append, run_handlers_urls, urls_of]

theorem camera_trace_urls (systems : Nat) (camera : PluginOutcome CameraResult) :
    urls_of (camera_trace systems camera) = [] := by
  unfold camera_trace
  split_ifs
  · rfl
  · rcases camera with what | what | result
    · rfl
    · rfl
    · cases result <;> rfl

theorem ftp_trace_urls (systems : Nat) (ftp : PluginOutcome FtpResult) :
    urls_of (ftp_trace systems ftp) = [] := by
  unfold ftp_trace
  split_ifs
  · rfl
  · rcases ftp with what | what | result
    · rfl
    · rfl
    · cases result <;> rfl

theorem discover_trace_urls (systems : Nat) : urls_of (discover_trace systems) = [] := by
  unfold discover_trace
  split_ifs <;> rfl

theorem edsdk_trace_urls (flag : Bool) : urls_of (edsdk_trace flag) = [] := by
  cases flag <;> rfl

theorem edsdk_trace_control (flag : Bool) : control_of (edsdk_trace flag) = [] := by
  cases flag <;> rfl

theorem control_of_append (a b : List Effect) :
    control_of (a ++ b) = control_of a ++ control_of b := by
  simp [control_of]

theorem connection_url_second (program url : String) (rest : List String) :
    connection_url (program :: url :: rest) = url := by
  simp [connection_url]

theorem camera_trace_sleeps (systems : Nat) (camera : PluginOutcome CameraResult) :
    sleeps_of (camera_trace systems camera) = 0 := by
  unfold camera_trace
  split_ifs
  · rfl
  · rcases camera with what | what | result
    · rfl
    · rfl
    · cases result <;> rfl

theorem ftp_trace_sleeps (systems : Nat) (ftp : PluginOutcome FtpResult) :
    sleeps_of (ftp_trace systems ftp) = 0 := by
  unfold ftp_trace
  split_ifs
  · rfl
  · rcases ftp with what | what | result
    · rfl
    · rfl
    · cases result <;> rfl

theorem discover_trace_sleeps (systems : Nat) : sleeps_of (discover_trace systems) = 0 := by
  unfold discover_trace
  split_ifs <;> rfl

theorem edsdk_trace_sleeps (flag : Bool) : sleeps_of (edsdk_trace flag) = 0 := by
  cases flag <;> rfl

/-- On the success path, `main` sleeps exactly as often as its loop does. -/
theorem main_success_sleeps (env : Env) (fuel : Nat) (argv : List String)
    (h : env.add_any_connection (connection_url argv) = ConnectionResult.Success) :
    sleeps_of (main env fuel argv).trace =
      sleeps_of (main_loop env.handler_calls fuel 0 Globals.start).trace := by
  rw [main_success env fuel argv h]
  simp only [sleeps_of_append, discover_trace_sleeps, camera_trace_sleeps, ftp_trace_sleeps,
    edsdk_trace_sleeps]
  have h1 : sleeps_of (connect_trace (connection_url argv)) = 0 := rfl
  rw [h1]
  split_ifs <;> simp [sleeps_of]

theorem main_loop_binary (calls : Nat → List Int) (fuel k : Nat) (g : Globals)
    (hg : g.should_exit = 0) :
    (main_loop calls fuel k g).globals.should_exit = 0 ∨
      (main_loop calls fuel k g).globals.should_exit = 1 := by
  by_cases hx : (main_loop calls fuel k g).exited = true
  · exact Or.inr (main_loop_exited calls fuel k g (Or.inl hg) hx).1
  · exact Or.inl (main_loop_running calls fuel k g hg (by simpa using hx)).1

theorem main_failure_code (env : Env) (fuel : Nat) (argv : List String)
    (h : env.add_any_connection (connection_url argv) ≠ ConnectionResult.Success) :
    (main env fuel argv).exit_code = some (-1) := by
  rcases connection_cases (env.add_any_connection (connection_url argv)) with hs | ⟨text, ht⟩
  · exact absurd hs h
  · rw [main_failure env fuel argv text ht]

theorem main_success_code (env : Env) (fuel : Nat) (argv : List String)
    (h : env.add_any_connection (connection_url argv) = ConnectionResult.Success)
    (code : Int) (hcode : (main env fuel argv).exit_code = some code) :
    code = 0 ∧ (main env fuel argv).globals.should_exit ≠ 0 := by
  rw [main_success env fuel argv h] at hcode ⊢
  by_cases hx : (main_loop env.handler_calls fuel 0 Globals.start).exited = true
  · have := main_loop_exited env.handler_calls fuel 0 Globals.start (Or.inl rfl) hx
    simp only [hx, ↓reduceIte, Option.some.injEq] at hcode
    refine ⟨hcode.symm, ?_⟩
    simp [this.1]
  · simp [hx] at hcode

theorem main_success_returns (env : Env) (fuel : Nat) (argv : List String)
    (h : env.add_any_connection (connection_url argv) = ConnectionResult.Success)
    (k : Nat) (hk : env.handler_calls k ≠ []) (hf : k < fuel) :
    (main env fuel argv).exit_code = some 0 := by
  rw [main_success env fuel argv h]
  have := main_loop_exits env.handler_calls k 0 fuel Globals.start (Or.inl rfl)
    (by simpa using hk) hf
  simp [this.1]

/-! ## Properties of main -/

/-- C5: exit codes of `main`. For every argument vector: when
`add_any_connection` returns a result other than Success, `main` returns -1,
a non-zero value, at once: whatever the fuel, with no plugin instantiated or
called, no evaluation of the loop condition and no sleep, its effects being the
start-up up to the call, the lines of the handlers that ran, and the line on
standard error. When the connection succeeded, every value `main`
returns is 0 and `should_exit` is then non-zero; and `main` does return 0 once
a handler has run. -/
theorem main_exit_codes (env : Env) (fuel : Nat) (argv : List String) :
    (env.add_any_connection (connection_url argv) ≠ ConnectionResult.Success →
      (main env fuel argv).exit_code = some (-1) ∧ (-1 : Int) ≠ 0 ∧
      (main env fuel argv).trace.all (fun e => !e.after_connect) = true ∧
      ∃ text, (main env fuel argv).trace =
        connect_trace (connection_url argv) ++
          (run_handlers Globals.start (env.handler_calls 0)).2 ++
          [Effect.cerr ("Connection failed: " ++ text)]) ∧
    (env.add_any_connection (connection_url argv) = ConnectionResult.Success →
      (∀ code, (main env fuel argv).exit_code = some code →
        code = 0 ∧ (main env fuel argv).globals.should_exit ≠ 0) ∧
      (∀ k, env.handler_calls k ≠ [] → k < fuel → (main env fuel argv).exit_code = some 0)) := by
  constructor
  · intro h
    refine ⟨main_failure_code env fuel argv h, by decide, ?_⟩
    rcases connection_cases (env.add_any_connection (connection_url argv)) with hs | ⟨text, ht⟩
    · exact absurd hs h
    · rw [main_failure env fuel argv text ht]
      refine ⟨?_, text, rfl⟩
      simp only [List.all_append, run_handlers_before_loop, Bool.and_true]
      rfl
  · intro h
    exact ⟨main_success_code env fuel argv h, main_success_returns env fuel argv h⟩

/-- C5 at concrete inputs: a serial URL, for which the sample environment
refuses the connection, and the default URL with a signal during the third
sleep. -/
theorem main_exit_codes_witness :
    (main sample_env 0 ["bridge", "serial:///dev/ttyUSB0"]).exit_code = some (-1) ∧
    (main sample_env 10 ["bridge"]).exit_code = some 0 :=
  ⟨((main_exit_codes sample_env 0 ["bridge", "serial:///dev/ttyUSB0"]).1 (by decide)).1,
   (main_exit_codes sample_env 10 ["bridge"]).2 (by decide) |>.2 3 (by decide) (by decide)⟩

/-- C7: degraded mode without the camera SDK. `CanonCamera::connect` returns
`false` on every call and leaves the object as it was, so no sequence of calls
reports a connected camera; this holds whatever the `EDSDK_AVAILABLE` flag,
which the class does not consult, hence when it is absent. A run of `main`
without the flag and the run with it, all else equal, return the same exit
code, end with the same globals and have the same control flow; their traces
are equal or differ only in the block of lines reporting on the EDSDK, which is
text only. -/
theorem camera_never_connects_and_main_ignores_edsdk (cam : CanonCamera) (n : Nat)
    (env : Env) (fuel : Nat) (argv : List String) :
    cam.connect.value = false ∧
    cam.connect.self = cam ∧
    call_times CanonCamera.connect cam n = List.replicate n false ∧
    (main { env with edsdk_available := false } fuel argv).exit_code =
      (main { env with edsdk_available := true } fuel argv).exit_code ∧
    (main { env with edsdk_available := false } fuel argv).globals =
      (main { env with edsdk_available := true } fuel argv).globals ∧
    control_of (main { env with edsdk_available := false } fuel argv).trace =
      control_of (main { env with edsdk_available := true } fuel argv).trace ∧
    ((main { env with edsdk_available := false } fuel argv).trace =
        (main { env with edsdk_available := true } fuel argv).trace ∨
      ∃ before after,
        (main { env with edsdk_available := false } fuel argv).trace =
          before ++ edsdk_trace false ++ after ∧
        (main { env with edsdk_available := true } fuel argv).trace =
          before ++ edsdk_trace true ++ after) ∧
    control_of (edsdk_trace false) = [] ∧ control_of (edsdk_trace true) = [] := by
  refine ⟨rfl, rfl, call_times_false _ (fun _ => rfl) cam n, ?_, ?_, ?_, ?_, rfl, rfl⟩
  all_goals
    rcases connection_cases (env.add_any_connection (connection_url argv)) with hs | ⟨text, ht⟩
  · rw [main_success { env with edsdk_available := false } fuel argv hs,
      main_success { env with edsdk_available := true } fuel argv hs]
  · rw [main_failure { env with edsdk_available := false } fuel argv text ht,
      main_failure { env with edsdk_available := true } fuel argv text ht]
  · rw [main_success { env with edsdk_available := false } fuel argv hs,
      main_success { env with edsdk_available := true } fuel argv hs]
  · rw [main_failure { env with edsdk_available := false } fuel argv text ht,
      main_failure { env with edsdk_available := true } fuel argv text ht]
  · rw [main_success { env with edsdk_available := false } fuel argv hs,
      main_success { env with edsdk_available := true } fuel argv hs]
    simp only [control_of_append, edsdk_trace_control]
  · rw [main_failure { env with edsdk_available := false } fuel argv text ht,
      main_failure { env with edsdk_available := true } fuel argv text ht]
  · right
    rw [main_success { env with edsdk_available := false } fuel argv hs,
      main_success { env with edsdk_available := true } fuel argv hs]
    exact ⟨connect_trace (connection_url argv) ++ discover_trace env.systems ++
        camera_trace env.systems env.camera ++ ftp_trace env.systems env.ftp,
      (main_loop env.handler_calls fuel 0 Globals.start).trace ++
        (if (main_loop env.handler_calls fuel 0 Globals.start).exited then
          [Effect.cout "CanonMavlinkBridge shutting down..."] else []),
      by simp only [List.append_assoc], by simp only [List.append_assoc]⟩
  · left
    rw [main_failure { env with edsdk_available := false } fuel argv text ht,
      main_failure { env with edsdk_available := true } fuel argv text ht]

/-- C8: connection string selection. In every run, `main` calls
`add_any_connection` exactly once, with `connection_url argv`: with `argv[1]`
itself, whatever string it is, when `argc > 1`, further arguments being
ignored, and with "udp://0.0.0.0:14540" when `argc` is at most 1. -/
theorem connection_string_selection (env : Env) (fuel : Nat) (argv : List String) :
    urls_of (main env fuel argv).trace = [connection_url argv] ∧
    (∀ h : 1 < argv.length, connection_url argv = argv[1]) ∧
    (argv.length ≤ 1 → connection_url argv = "udp://0.0.0.0:14540") ∧
    (∀ program url rest, urls_of (main env fuel (program :: url :: rest)).trace = [url]) := by
  have key : ∀ args, urls_of (main env fuel args).trace = [connection_url args] := by
    intro args
    rcases connection_cases (env.add_any_connection (connection_url args)) with hs | ⟨text, ht⟩
    · rw [main_success env fuel args hs]
      simp only [urls_of_append, discover_trace_urls, camera_trace_urls, ftp_trace_urls,
        edsdk_trace_urls, main_loop_urls]
      split_ifs <;> rfl
    · rw [main_failure env fuel args text ht]
      simp only [urls_of_append, run_handlers_urls]
      rfl
  refine ⟨key argv, ?_, ?_, ?_⟩
  · intro h
    simp [connection_url, h]
  · intro h
    have : ¬ 1 < argv.length := by omega
    simp [connection_url, this]
  · intro program url rest
    rw [key, connection_url_second]

/-- C8 at concrete inputs: a URL given with a further argument after it, and
no argument at all. -/
theorem connection_string_selection_witness :
    connection_url ["bridge", "tcp://10.0.0.2:5760", "--verbose"] = "tcp://10.0.0.2:5760" ∧
    connection_url ["bridge"] = "udp://0.0.0.0:14540" :=
  ⟨(connection_string_selection sample_env 0
      ["bridge", "tcp://10.0.0.2:5760", "--verbose"]).2.1 (by decide),
   (connection_string_selection sample_env 0 ["bridge"]).2.2.1 (by decide)⟩

/-- C9, as stated, fails: SIGINT is handled during start-up and the connection
is refused. The handler has run (its line is written, the flag is 1 and stays
1), yet `main` never evaluates the loop condition and returns -1, not 0. -/
theorem handler_ran_but_main_returns_minus_one :
    Effect.cout "Received signal 2, shutting down..." ∈
      (main early_signal_env 10 ["bridge", "serial:///dev/ttyUSB0"]).trace ∧
    (main early_signal_env 10 ["bridge", "serial:///dev/ttyUSB0"]).globals.should_exit = 1 ∧
    (∀ flag, Effect.loop_test flag ∉
      (main early_signal_env 10 ["bridge", "serial:///dev/ttyUSB0"]).trace) ∧
    (main early_signal_env 10 ["bridge", "serial:///dev/ttyUSB0"]).exit_code = some (-1) ∧
    (main early_signal_env 10 ["bridge", "serial:///dev/ttyUSB0"]).exit_code ≠ some 0 := by
  have h : early_signal_env.add_any_connection
      (connection_url ["bridge", "serial:///dev/ttyUSB0"]) =
        ConnectionResult.Other "ConnectionError" := by decide
  rw [main_failure early_signal_env 10 _ _ h]
  refine ⟨?_, rfl, ?_, rfl, by decide⟩
  · simp [early_signal_env, run_handlers, signal_handler, SIGINT]
    decide
  · intro flag
    simp [early_signal_env, run_handlers, signal_handler, connect_trace]

/-- C9, amended: the shutdown flag is a one-way latch, and `main` returns 0
after it only when the connection had succeeded. `should_exit` starts at 0;
`signal_handler` stores 1 in it for every signal number and every earlier
value; handler runs keep a flag that is 1 at 1, and nothing else writes the
flag, so in every run of `main` it is 0 or 1, and it is 1 at the end of every
run in which a handler ran during start-up. After a successful connection, once
a handler has run before evaluation `k` of the loop condition, then in every
longer run the flag is 1, the loop has read the flag as 1, it has slept at most
`k` times (exactly `k` times when no handler ran earlier: the loop is left at
that very evaluation), and `main` has returned 0. After a failed connection
`main` returns -1 whatever the flag, without evaluating the loop condition. -/
theorem should_exit_is_a_one_way_latch (g : Globals) (signal : Int) (signals : List Int)
    (env : Env) (argv : List String) (k fuel : Nat) :
    Globals.start.should_exit = 0 ∧
    (signal_handler g signal).1.should_exit = 1 ∧
    (g.should_exit = 1 → (run_handlers g signals).1.should_exit = 1) ∧
    ((main env fuel argv).globals.should_exit = 0 ∨
      (main env fuel argv).globals.should_exit = 1) ∧
    (env.handler_calls 0 ≠ [] → 0 < fuel → (main env fuel argv).globals.should_exit = 1) ∧
    (env.add_any_connection (connection_url argv) = ConnectionResult.Success →
      env.handler_calls k ≠ [] → k < fuel →
        (main env fuel argv).globals.should_exit = 1 ∧
        Effect.loop_test 1 ∈ (main env fuel argv).trace ∧
        sleeps_of (main env fuel argv).trace ≤ k ∧
        ((∀ j, j < k → env.handler_calls j = []) →
          sleeps_of (main env fuel argv).trace = k) ∧
        (main env fuel argv).exit_code = some 0) ∧
    (env.add_any_connection (connection_url argv) ≠ ConnectionResult.Success →
      (main env fuel argv).exit_code = some (-1) ∧
      (main env fuel argv).globals =
        (run_handlers Globals.start (env.handler_calls 0)).1 ∧
      ∀ flag, Effect.loop_test flag ∉ (main env fuel argv).trace) := by
  have success : env.add_any_connection (connection_url argv) = ConnectionResult.Success →
      env.handler_calls k ≠ [] → k < fuel →
        (main env fuel argv).globals.should_exit = 1 ∧
        Effect.loop_test 1 ∈ (main env fuel argv).trace ∧
        sleeps_of (main env fuel argv).trace ≤ k ∧
        ((∀ j, j < k → env.handler_calls j = []) →
          sleeps_of (main env fuel argv).trace = k) ∧
        (main env fuel argv).exit_code = some 0 := by
    intro hs hk hf
    have hk0 : env.handler_calls (0 + k) ≠ [] := by simpa using hk
    obtain ⟨e1, e2, e3⟩ :=
      main_loop_exits env.handler_calls k 0 fuel Globals.start (Or.inl rfl) hk0 hf
    have e4 := (main_loop_exited env.handler_calls fuel 0 Globals.start (Or.inl rfl) e1).2
    refine ⟨?_, ?_, ?_, ?_, ?_⟩
    · rw [main_success env fuel argv hs]
      exact e2
    · rw [main_success env fuel argv hs]
      have := List.mem_of_getLast?_eq_some e4
      simp [this]
    · rw [main_success_sleeps env fuel argv hs]
      exact e3
    · intro hnone
      rw [main_success_sleeps env fuel argv hs]
      exact main_loop_first env.handler_calls k 0 fuel Globals.start rfl
        (by intro j hj; simpa using hnone j hj) hk0 hf
    · rw [main_success env fuel argv hs]
      simp [e1]
  refine ⟨rfl, rfl, run_handlers_latch g signals, ?_, ?_, success, ?_⟩
  · rcases connection_cases (env.add_any_connection (connection_url argv)) with hs | ⟨text, ht⟩
    · rw [main_success env fuel argv hs]
      exact main_loop_binary env.handler_calls fuel 0 Globals.start rfl
    · rw [main_failure env fuel argv text ht]
      exact run_handlers_binary Globals.start _ (Or.inl rfl)
  · intro h0 hf
    rcases connection_cases (env.add_any_connection (connection_url argv)) with hs | ⟨text, ht⟩
    · rw [main_success env fuel argv hs]
      exact (main_loop_exits env.handler_calls 0 0 fuel Globals.start (Or.inl rfl)
        (by simpa using h0) hf).2.1
    · rw [main_failure env fuel argv text ht]
      exact run_handlers_sets Globals.start _ h0
  · intro hne
    rcases connection_cases (env.add_any_connection (connection_url argv)) with hs | ⟨text, ht⟩
    · exact absurd hs hne
    · rw [main_failure env fuel argv text ht]
      refine ⟨rfl, rfl, fun flag hmem => ?_⟩
      have hall : (connect_trace (connection_url argv) ++
          (run_handlers Globals.start (env.handler_calls 0)).2 ++
          [Effect.cerr ("Connection failed: " ++ text)]).all (fun e => !e.after_connect) =
            true := by
        simp only [List.all_append, run_handlers_before_loop, Bool.and_true]
        rfl
      have := List.all_eq_true.mp hall _ hmem
      simp [Effect.after_connect] at this

/-- C9, amended, at concrete inputs: SIGINT handled during the third sleep of a
run on the default URL, which has then slept exactly 3 times and returned 0;
and SIGINT handled during the start-up of a run whose connection is refused,
which ends with the flag at 1 and returns -1. -/
theorem should_exit_is_a_one_way_latch_witness :
    (main sample_env 10 ["bridge"]).globals.should_exit = 1 ∧
    sleeps_of (main sample_env 10 ["bridge"]).trace = 3 ∧
    (main sample_env 10 ["bridge"]).exit_code = some 0 ∧
    (main early_signal_env 10 ["bridge", "serial:///dev/ttyUSB0"]).globals.should_exit = 1 ∧
    (main early_signal_env 10 ["bridge", "serial:///dev/ttyUSB0"]).exit_code = some (-1) :=
  have h :=
    (should_exit_is_a_one_way_latch Globals.start 2 [] sample_env ["bridge"] 3 10).2.2.2.2.2.1
      (by decide) (by decide) (by decide)
  have e := should_exit_is_a_one_way_latch Globals.start 2 [] early_signal_env
    ["bridge", "serial:///dev/ttyUSB0"] 0 10
  ⟨h.1, h.2.2.2.1 (by decide), h.2.2.2.2, e.2.2.2.2.1 (by decide) (by decide),
    (e.2.2.2.2.2.2 (by decide)).1⟩

end Bridge
